import Mathlib

/-!
Shallow embedding of the Drawvy whiteboard component
(src/src/components/Board/index.js) and verification of claims about it.

The canvas 2D context is modelled as a display list: the pixel content of
the surface is the ordered list of strokes that have been rendered onto it,
each stroke recording its path operations and the pen style (strokeStyle,
lineWidth) current at the time of the stroke call.  Coordinates and sizes
are rationals, so the decimal literals 0.3 and 0.7 of the source are exact.
Assigning canvas.width or canvas.height resets the 2D context to its
default state and clears the pixel content, per the HTML canvas semantics;
setupHighResCanvas relies on this.  JavaScript array indexing that can
yield undefined is modelled with Option, and putImageData applied to
undefined throws, modelled as Except.error.
-/

namespace Drawvy

/-- Pen style captured into each rendered stroke. -/
structure PenStyle where
  color : String
  width : ℚ
deriving DecidableEq

/-- Path operations of the 2D context used by the component. -/
inductive PathOp where
  | moveTo (x y : ℚ)
  | lineTo (x y : ℚ)
  | bezierCurveTo (cp1x cp1y cp2x cp2y x y : ℚ)
deriving DecidableEq

/-- One rendered stroke: the path that was stroked and the style used. -/
structure Stroke where
  path : List PathOp
  style : PenStyle
deriving DecidableEq

/-- The pixel content of the surface, as the list of rendered strokes.
An ImageData snapshot is a copy of this content. -/
abbrev Raster := List Stroke

/-- The state of the canvas 2D rendering context. -/
structure Ctx where
  strokeStyle : String
  lineWidth : ℚ
  lineCap : String
  lineJoin : String
  scaleFactor : ℚ
  currentPath : List PathOp
  pixels : Raster
deriving DecidableEq

/-- A freshly reset 2D context with blank pixel content: the state after
assigning canvas.width and canvas.height. -/
def freshCtx : Ctx :=
  { strokeStyle := "#000000", lineWidth := 1, lineCap := "butt",
    lineJoin := "miter", scaleFactor := 1, currentPath := [], pixels := [] }

/-- context.beginPath(): start a new current path. -/
def ctxBeginPath (c : Ctx) : Ctx := { c with currentPath := [] }

/-- context.moveTo(x, y). -/
def ctxMoveTo (c : Ctx) (x y : ℚ) : Ctx :=
  { c with currentPath := c.currentPath ++ [PathOp.moveTo x y] }

/-- context.lineTo(x, y). -/
def ctxLineTo (c : Ctx) (x y : ℚ) : Ctx :=
  { c with currentPath := c.currentPath ++ [PathOp.lineTo x y] }

/-- context.bezierCurveTo(cp1x, cp1y, cp2x, cp2y, x, y). -/
def ctxBezierCurveTo (c : Ctx) (cp1x cp1y cp2x cp2y x y : ℚ) : Ctx :=
  { c with currentPath :=
      c.currentPath ++ [PathOp.bezierCurveTo cp1x cp1y cp2x cp2y x y] }

/-- context.stroke(): render the current path onto the surface with the
current strokeStyle and lineWidth.  The current path is not cleared. -/
def ctxStroke (c : Ctx) : Ctx :=
  { c with pixels :=
      c.pixels ++ [⟨c.currentPath, ⟨c.strokeStyle, c.lineWidth⟩⟩] }

/-- context.scale(k, k): compose a uniform scale onto the transform. -/
def ctxScale (c : Ctx) (k : ℚ) : Ctx :=
  { c with scaleFactor := c.scaleFactor * k }

/-- context.putImageData(img, 0, 0) with a full-surface ImageData:
replace the pixel content. -/
def ctxPutImageData (c : Ctx) (img : Raster) : Ctx := { c with pixels := img }

/-- context.getImageData(0, 0, canvas.width, canvas.height): copy the full
pixel content. -/
def ctxGetImageData (c : Ctx) : Raster := c.pixels

/-- drawSmoothLine (source lines 21-33): one cubic segment between two
points, with the control points computed as in the source. -/
def drawSmoothLine (context : Ctx) (x1 y1 x2 y2 : ℚ) : Ctx :=
  let c0 := ctxMoveTo (ctxBeginPath context) x1 y1
  let cp1x := x1 + (x2 - x1) * 0.3
  let cp1y := y1 + (y2 - y1) * 0.3
  let cp2x := x1 + (x2 - x1) * 0.7
  let cp2y := y1 + (y2 - y1) * 0.7
  ctxStroke (ctxBezierCurveTo c0 cp1x cp1y cp2x cp2y x2 y2)

/-- setupHighResCanvas (source lines 36-51): reassigning canvas.width and
canvas.height resets the context and clears the surface; then the
device-pixel-ratio scale and round cap/join are applied.  The CSS rect is
irrelevant to the display-list model, so only dpr is a parameter. -/
def setupHighResCanvas (dpr : ℚ) : Ctx :=
  let ctx := ctxScale freshCtx dpr
  { ctx with lineCap := "round", lineJoin := "round" }

/-- Wire messages of the stroke protocol. -/
inductive SocketMsg where
  | beginPath (x y : ℚ)
  | drawLine (x y : ℚ)
deriving DecidableEq

/-- changeConfig payload. -/
structure ConfigMessage where
  color : String
  size : ℚ
deriving DecidableEq

/-- The one-shot action commands delivered through the menu slice. -/
inductive ActionItem where
  | download
  | undo
  | redo
deriving DecidableEq

/-- The mutable state held by the Board component across events. -/
structure BoardState where
  ctx : Ctx
  drawHistory : List Raster
  historyPointer : ℤ
  shouldDraw : Bool
  lastPos : ℚ × ℚ
  emitted : List SocketMsg
  downloads : List Raster
deriving DecidableEq

/-- Board state at session start. -/
def initialBoard : BoardState :=
  { ctx := freshCtx, drawHistory := [], historyPointer := 0,
    shouldDraw := false, lastPos := (0, 0), emitted := [], downloads := [] }

/-- JavaScript array indexing arr with a possibly negative integer index:
undefined (none) when out of range. -/
def jsIndex {α : Type} (l : List α) (i : ℤ) : Option α :=
  if 0 ≤ i then l[i.toNat]? else none

/-- Source lines 75-77: commit the new pointer, then look up
drawHistory[newPointer] and putImageData it.  When the lookup is
undefined, putImageData throws a TypeError. -/
def materialize (s : BoardState) (newPointer : ℤ) : Except String BoardState :=
  match jsIndex s.drawHistory newPointer with
  | some imageData =>
      Except.ok { s with historyPointer := newPointer,
                         ctx := ctxPutImageData s.ctx imageData }
  | none =>
      Except.error "TypeError: putImageData argument 1 is not an ImageData"

/-- The branch of the action effect (source lines 59-78) taken after the
canvas setup, operating on the post-setup state. -/
def actionBranch (s1 : BoardState) (actionMenuItem : Option ActionItem) :
    Except String BoardState :=
  match actionMenuItem with
  | some ActionItem.download =>
      Except.ok { s1 with downloads := s1.downloads ++ [ctxGetImageData s1.ctx] }
  | some ActionItem.undo =>
      materialize s1 (max 0 (s1.historyPointer - 1))
  | some ActionItem.redo =>
      materialize s1 (min ((s1.drawHistory.length : ℤ) - 1) (s1.historyPointer + 1))
  | none => Except.ok s1

/-- The action effect (source lines 53-81): it first runs
setupHighResCanvas, which reassigns the canvas dimensions and thereby
resets the context and clears the surface, then runs the Download or
Undo/Redo branch; it re-runs on every change of actionMenuItem, including
when the item is cleared back to null. -/
def runActionEffect (dpr : ℚ) (s : BoardState) (actionMenuItem : Option ActionItem) :
    Except String BoardState :=
  let s1 : BoardState := { s with ctx := setupHighResCanvas dpr }
  match actionMenuItem with
  | some ActionItem.download =>
      Except.ok { s1 with downloads := s1.downloads ++ [ctxGetImageData s1.ctx] }
  | some ActionItem.undo =>
      materialize s1 (max 0 (s1.historyPointer - 1))
  | some ActionItem.redo =>
      materialize s1 (min ((s1.drawHistory.length : ℤ) - 1) (s1.historyPointer + 1))
  | none => Except.ok s1

/-- Sequencing of delivered action commands through the effect. -/
def runActions (dpr : ℚ) (acts : List ActionItem) (s : BoardState) :
    Except String BoardState :=
  match acts with
  | [] => Except.ok s
  | a :: rest => (runActionEffect dpr s (some a)).bind (runActions dpr rest)

/-- changeConfig (source lines 88-93). -/
def changeConfig (color : String) (size : ℚ) (context : Ctx) : Ctx :=
  { context with strokeStyle := color, lineWidth := size,
                 lineCap := "round", lineJoin := "round" }

/-- handleChangeConfig (source lines 98-100): the changeConfig socket
handler. -/
def handleChangeConfig (config : ConfigMessage) (context : Ctx) : Ctx :=
  changeConfig config.color config.size context

/-- handleDrawStart (source lines 130-140). -/
def handleDrawStart (s : BoardState) (pos : ℚ × ℚ) : BoardState :=
  { s with shouldDraw := true, lastPos := pos,
           ctx := ctxMoveTo (ctxBeginPath s.ctx) pos.1 pos.2,
           emitted := s.emitted ++ [SocketMsg.beginPath pos.1 pos.2] }

/-- handleDrawMove (source lines 142-160): a no-op unless a gesture is
active. -/
def handleDrawMove (s : BoardState) (pos : ℚ × ℚ) : BoardState :=
  if s.shouldDraw = false then s
  else
    { s with ctx := drawSmoothLine s.ctx s.lastPos.1 s.lastPos.2 pos.1 pos.2,
             lastPos := pos,
             emitted := s.emitted ++ [SocketMsg.drawLine pos.1 pos.2] }

/-- handleDrawEnd (source lines 162-171): snapshot the surface, append it
to the history and point at it. -/
def handleDrawEnd (s : BoardState) : BoardState :=
  if s.shouldDraw = false then s
  else
    let imageData := ctxGetImageData s.ctx
    let hist := s.drawHistory ++ [imageData]
    { s with shouldDraw := false, drawHistory := hist,
             historyPointer := (hist.length : ℤ) - 1 }

/-- The beginPath socket receive handler (source lines 184-187). -/
def recvBeginPath (s : BoardState) (x y : ℚ) : BoardState :=
  { s with ctx := ctxMoveTo (ctxBeginPath s.ctx) x y }

/-- The drawLine socket receive handler (source lines 189-192): a lineTo
immediately followed by a stroke. -/
def recvDrawLine (s : BoardState) (x y : ℚ) : BoardState :=
  { s with ctx := ctxStroke (ctxLineTo s.ctx x y) }

/-- Dispatch of a received stroke message to its handler. -/
def recvStrokeMessage (s : BoardState) : SocketMsg → BoardState
  | SocketMsg.beginPath x y => recvBeginPath s x y
  | SocketMsg.drawLine x y => recvDrawLine s x y

/-- The style of the most recently rendered stroke of a raster. -/
def lastStyle (r : Raster) : Option PenStyle := r.getLast?.map Stroke.style

/-- A board state with one recorded snapshot and the pointer on it. -/
def oneSnapshotBoard : BoardState := { initialBoard with drawHistory := [[]] }

/-- A board state in the middle of an active drawing gesture. -/
def activeBoard : BoardState := { initialBoard with shouldDraw := true }

lemma toNat_lt_of_range {i : ℤ} {n : ℕ} (h0 : 0 ≤ i) (h : i < (n : ℤ)) :
    i.toNat < n := by omega

/-- C3: recording a snapshot at gesture end appends the current surface
content to the history and sets the pointer to the newly appended index;
no existing snapshot is discarded, the sequence only grows by one. -/
theorem record_snapshot_appends (s : BoardState) (h : s.shouldDraw = true) :
    (handleDrawEnd s).drawHistory = s.drawHistory ++ [ctxGetImageData s.ctx] ∧
    (handleDrawEnd s).historyPointer =
      ((handleDrawEnd s).drawHistory.length : ℤ) - 1 ∧
    (handleDrawEnd s).shouldDraw = false := by
  simp [handleDrawEnd, h]

theorem record_snapshot_appends_witness :
    activeBoard.shouldDraw = true ∧
    ((handleDrawEnd activeBoard).drawHistory =
        activeBoard.drawHistory ++ [ctxGetImageData activeBoard.ctx] ∧
      (handleDrawEnd activeBoard).historyPointer =
        ((handleDrawEnd activeBoard).drawHistory.length : ℤ) - 1 ∧
      (handleDrawEnd activeBoard).shouldDraw = false) :=
  ⟨rfl, record_snapshot_appends activeBoard rfl⟩

/-- C5: a move event delivered while no gesture is active (shouldDraw is
false) performs no draw call, emits no network message, and leaves the
whole board state unchanged. -/
theorem move_without_gesture_is_noop (s : BoardState) (pos : ℚ × ℚ)
    (h : s.shouldDraw = false) :
    handleDrawMove s pos = s ∧
    (handleDrawMove s pos).emitted = s.emitted ∧
    (handleDrawMove s pos).ctx.pixels = s.ctx.pixels ∧
    (handleDrawMove s pos).drawHistory = s.drawHistory ∧
    (handleDrawMove s pos).lastPos = s.lastPos := by
  have he : handleDrawMove s pos = s := by simp [handleDrawMove, h]
  exact ⟨he, by rw [he], by rw [he], by rw [he], by rw [he]⟩

theorem move_without_gesture_is_noop_witness :
    initialBoard.shouldDraw = false ∧
    (handleDrawMove initialBoard (1, 2) = initialBoard ∧
      (handleDrawMove initialBoard (1, 2)).emitted = initialBoard.emitted ∧
      (handleDrawMove initialBoard (1, 2)).ctx.pixels = initialBoard.ctx.pixels ∧
      (handleDrawMove initialBoard (1, 2)).drawHistory = initialBoard.drawHistory ∧
      (handleDrawMove initialBoard (1, 2)).lastPos = initialBoard.lastPos) :=
  ⟨rfl, move_without_gesture_is_noop initialBoard (1, 2) rfl⟩

/-- C6: drawSmoothLine renders a single cubic curve whose control points
lie at 30 percent and 70 percent of the way from the first endpoint to the
second; for endpoints (0,0) and (10,0) the control points are (3,0) and
(7,0). -/
theorem drawSegment_control_points (c : Ctx) (x1 y1 x2 y2 : ℚ) :
    (drawSmoothLine c x1 y1 x2 y2).pixels =
      c.pixels ++ [⟨[PathOp.moveTo x1 y1,
        PathOp.bezierCurveTo (x1 + 0.3 * (x2 - x1)) (y1 + 0.3 * (y2 - y1))
          (x1 + 0.7 * (x2 - x1)) (y1 + 0.7 * (y2 - y1)) x2 y2],
        ⟨c.strokeStyle, c.lineWidth⟩⟩] ∧
    (drawSmoothLine c 0 0 10 0).pixels =
      c.pixels ++ [⟨[PathOp.moveTo 0 0, PathOp.bezierCurveTo 3 0 7 0 10 0],
        ⟨c.strokeStyle, c.lineWidth⟩⟩] := by
  constructor
  · simp [drawSmoothLine, ctxBeginPath, ctxMoveTo, ctxBezierCurveTo, ctxStroke,
      mul_comm]
  · norm_num [drawSmoothLine, ctxBeginPath, ctxMoveTo, ctxBezierCurveTo,
      ctxStroke]

/-- C7: receiving BeginPath(x,y) begins a new path at (x,y), and each
received DrawLine is an immediately stroked line-to (a stroke happens
inside the drawLine handler itself), so BeginPath(5,5) followed by
DrawLine(15,5) renders a visible segment from (5,5) to (15,5) with no
further event. -/
theorem remote_begin_then_drawLine_renders (s : BoardState) (x y x' y' : ℚ) :
    (recvDrawLine (recvBeginPath s x y) x' y').ctx.pixels =
      s.ctx.pixels ++ [⟨[PathOp.moveTo x y, PathOp.lineTo x' y'],
        ⟨s.ctx.strokeStyle, s.ctx.lineWidth⟩⟩] ∧
    (∀ t : BoardState, (recvDrawLine t x' y').ctx.pixels =
      t.ctx.pixels ++ [⟨t.ctx.currentPath ++ [PathOp.lineTo x' y'],
        ⟨t.ctx.strokeStyle, t.ctx.lineWidth⟩⟩]) ∧
    (recvDrawLine (recvBeginPath s 5 5) 15 5).ctx.pixels =
      s.ctx.pixels ++ [⟨[PathOp.moveTo 5 5, PathOp.lineTo 15 5],
        ⟨s.ctx.strokeStyle, s.ctx.lineWidth⟩⟩] :=
  ⟨rfl, fun _ => rfl, rfl⟩

/-- C8: receiving a remote stroke message (BeginPath or DrawLine) leaves
the history completely unchanged: no snapshot is appended and the pointer
does not move; nor is any other board state touched beyond the canvas. -/
theorem remote_stroke_leaves_history_unchanged (s : BoardState) (m : SocketMsg) :
    (recvStrokeMessage s m).drawHistory = s.drawHistory ∧
    (recvStrokeMessage s m).historyPointer = s.historyPointer ∧
    (recvStrokeMessage s m).shouldDraw = s.shouldDraw ∧
    (recvStrokeMessage s m).lastPos = s.lastPos ∧
    (recvStrokeMessage s m).emitted = s.emitted ∧
    (recvStrokeMessage s m).downloads = s.downloads := by
  cases m <;> exact ⟨rfl, rfl, rfl, rfl, rfl, rfl⟩

/-- C9: applying a ConfigMessage (or a local style-source change via
changeConfig) updates strokeStyle and lineWidth at once, so the very next
drawn segment, local (drawSmoothLine) or remote (lineTo plus stroke), is
rendered with the new style. -/
theorem config_applies_to_next_segment (c : Ctx) (cfg : ConfigMessage)
    (color : String) (size : ℚ) (x1 y1 x2 y2 : ℚ) :
    (handleChangeConfig cfg c).strokeStyle = cfg.color ∧
    (handleChangeConfig cfg c).lineWidth = cfg.size ∧
    lastStyle (drawSmoothLine (handleChangeConfig cfg c) x1 y1 x2 y2).pixels =
      some ⟨cfg.color, cfg.size⟩ ∧
    lastStyle (ctxStroke (ctxLineTo (handleChangeConfig cfg c) x2 y2)).pixels =
      some ⟨cfg.color, cfg.size⟩ ∧
    (changeConfig color size c).strokeStyle = color ∧
    (changeConfig color size c).lineWidth = size ∧
    lastStyle (drawSmoothLine (changeConfig color size c) x1 y1 x2 y2).pixels =
      some ⟨color, size⟩ := by
  refine ⟨rfl, rfl, ?_, ?_, rfl, rfl, ?_⟩ <;>
    simp [lastStyle, drawSmoothLine, handleChangeConfig, changeConfig,
      ctxBeginPath, ctxMoveTo, ctxBezierCurveTo, ctxLineTo, ctxStroke]

/-- C10: on every delivered action value, including the null one written
back after a command is consumed, the effect first re-runs the
high-resolution canvas setup, which clears the surface pixel content,
resets the current path, and re-applies the device-pixel-ratio scale and
round cap/join, and only then runs the Download or Undo/Redo branch; in
particular the surface content present before the effect is irrelevant to
its result. -/
theorem action_effect_resets_surface_first (dpr : ℚ) (s : BoardState)
    (a : Option ActionItem) (c : Ctx) :
    runActionEffect dpr s a =
      actionBranch { s with ctx := setupHighResCanvas dpr } a ∧
    (setupHighResCanvas dpr).pixels = [] ∧
    (setupHighResCanvas dpr).currentPath = [] ∧
    (setupHighResCanvas dpr).scaleFactor = dpr ∧
    (setupHighResCanvas dpr).lineCap = "round" ∧
    (setupHighResCanvas dpr).lineJoin = "round" ∧
    runActionEffect dpr { s with ctx := c } a = runActionEffect dpr s a := by
  refine ⟨?_, rfl, rfl, one_mul dpr, rfl, rfl, ?_⟩
  · cases a with
    | none => rfl
    | some x => cases x <;> rfl
  · cases a with
    | none => rfl
    | some x => cases x <;> rfl

lemma jsIndex_eq_getElem {α : Type} (l : List α) (i : ℤ) (h0 : 0 ≤ i)
    (hn : i.toNat < l.length) : jsIndex l i = some l[i.toNat] := by
  simp [jsIndex, if_pos h0, List.getElem?_eq_getElem hn]

/-- One delivered Undo or Redo command on a nonempty history with an
in-range pointer: the effect succeeds, preserves the snapshot sequence,
clamps the pointer as in the source, and materializes the snapshot at the
new pointer onto the surface. -/
lemma runActionEffect_step (dpr : ℚ) (s : BoardState) (a : ActionItem)
    (ha : a = ActionItem.undo ∨ a = ActionItem.redo)
    (hN : 0 < s.drawHistory.length)
    (hlo : 0 ≤ s.historyPointer)
    (hhi : s.historyPointer < (s.drawHistory.length : ℤ)) :
    ∃ s', runActionEffect dpr s (some a) = Except.ok s' ∧
      s'.drawHistory = s.drawHistory ∧
      0 ≤ s'.historyPointer ∧
      s'.historyPointer < (s'.drawHistory.length : ℤ) ∧
      s'.historyPointer =
        (if a = ActionItem.undo then max 0 (s.historyPointer - 1)
         else min ((s.drawHistory.length : ℤ) - 1) (s.historyPointer + 1)) ∧
      jsIndex s.drawHistory s'.historyPointer = some s'.ctx.pixels ∧
      s'.shouldDraw = s.shouldDraw ∧ s'.emitted = s.emitted := by
  rcases ha with rfl | rfl
  · have h0 : 0 ≤ max 0 (s.historyPointer - 1) := le_max_left _ _
    have hlt : max 0 (s.historyPointer - 1) < (s.drawHistory.length : ℤ) :=
      max_lt (by exact_mod_cast hN) (by omega)
    have hn : (max 0 (s.historyPointer - 1)).toNat < s.drawHistory.length :=
      toNat_lt_of_range h0 hlt
    refine ⟨{ s with
        ctx := ctxPutImageData (setupHighResCanvas dpr)
          (s.drawHistory[(max 0 (s.historyPointer - 1)).toNat]),
        historyPointer := max 0 (s.historyPointer - 1) },
      ?_, rfl, h0, hlt, by simp, ?_, rfl, rfl⟩
    · show materialize { s with ctx := setupHighResCanvas dpr }
        (max 0 (s.historyPointer - 1)) = _
      simp [materialize, jsIndex_eq_getElem _ _ h0 hn]
    · simp [jsIndex_eq_getElem _ _ h0 hn, ctxPutImageData]
  · have h0 : 0 ≤ min ((s.drawHistory.length : ℤ) - 1) (s.historyPointer + 1) :=
      le_min (by omega) (by omega)
    have hlt : min ((s.drawHistory.length : ℤ) - 1) (s.historyPointer + 1) <
        (s.drawHistory.length : ℤ) :=
      lt_of_le_of_lt (min_le_left _ _) (by omega)
    have hn : (min ((s.drawHistory.length : ℤ) - 1)
        (s.historyPointer + 1)).toNat < s.drawHistory.length :=
      toNat_lt_of_range h0 hlt
    refine ⟨{ s with
        ctx := ctxPutImageData (setupHighResCanvas dpr)
          (s.drawHistory[(min ((s.drawHistory.length : ℤ) - 1)
            (s.historyPointer + 1)).toNat]),
        historyPointer :=
          min ((s.drawHistory.length : ℤ) - 1) (s.historyPointer + 1) },
      ?_, rfl, h0, hlt, by simp, ?_, rfl, rfl⟩
    · show materialize { s with ctx := setupHighResCanvas dpr }
        (min ((s.drawHistory.length : ℤ) - 1) (s.historyPointer + 1)) = _
      simp [materialize, jsIndex_eq_getElem _ _ h0 hn]
    · simp [jsIndex_eq_getElem _ _ h0 hn, ctxPutImageData]

/-- C1: under any sequence of delivered Undo and Redo commands on a
history holding at least one snapshot, every run succeeds, the pointer
stays within the index range of the snapshot sequence, and the snapshot
sequence itself is never changed. -/
theorem history_invariant_under_undo_redo (dpr : ℚ) (acts : List ActionItem)
    (s : BoardState)
    (hacts : ∀ a ∈ acts, a = ActionItem.undo ∨ a = ActionItem.redo)
    (hN : 1 ≤ s.drawHistory.length)
    (hlo : 0 ≤ s.historyPointer)
    (hhi : s.historyPointer < (s.drawHistory.length : ℤ)) :
    ∃ s', runActions dpr acts s = Except.ok s' ∧
      0 ≤ s'.historyPointer ∧ s'.historyPointer < (s'.drawHistory.length : ℤ) ∧
      s'.drawHistory = s.drawHistory := by
  induction acts generalizing s with
  | nil => exact ⟨s, rfl, hlo, hhi, rfl⟩
  | cons a rest ih =>
    obtain ⟨s1, heq, hist, h0, hlt, -, -, -, -⟩ :=
      runActionEffect_step dpr s a (hacts a (by simp)) (by omega) hlo hhi
    obtain ⟨s', heq', h0', hlt', hist'⟩ :=
      ih s1 (fun b hb => hacts b (by simp [hb])) (by rw [hist]; omega) h0 hlt
    refine ⟨s', ?_, h0', hlt', hist'.trans hist⟩
    rw [runActions, heq]
    exact heq'

theorem history_invariant_under_undo_redo_witness :
    (∀ a ∈ [ActionItem.undo, ActionItem.redo, ActionItem.undo],
        a = ActionItem.undo ∨ a = ActionItem.redo) ∧
    1 ≤ oneSnapshotBoard.drawHistory.length ∧
    0 ≤ oneSnapshotBoard.historyPointer ∧
    oneSnapshotBoard.historyPointer < (oneSnapshotBoard.drawHistory.length : ℤ) ∧
    (∃ s', runActions 1 [ActionItem.undo, ActionItem.redo, ActionItem.undo]
        oneSnapshotBoard = Except.ok s' ∧
      0 ≤ s'.historyPointer ∧ s'.historyPointer < (s'.drawHistory.length : ℤ) ∧
      s'.drawHistory = oneSnapshotBoard.drawHistory) :=
  ⟨by decide, by decide, by decide, by decide,
    history_invariant_under_undo_redo 1
      [ActionItem.undo, ActionItem.redo, ActionItem.undo] oneSnapshotBoard
      (by decide) (by decide) (by decide) (by decide)⟩

/-- C2: on a nonempty history with an in-range pointer, Undo sets the
pointer to max(0, p - 1) and Redo to min(len - 1, p + 1), neither wraps
nor throws, and the snapshot at the resulting pointer is exactly the one
materialized onto the surface. -/
theorem undo_redo_clamp_and_materialize (dpr : ℚ) (s : BoardState)
    (hN : 0 < s.drawHistory.length)
    (hlo : 0 ≤ s.historyPointer)
    (hhi : s.historyPointer < (s.drawHistory.length : ℤ)) :
    (∃ s', runActionEffect dpr s (some ActionItem.undo) = Except.ok s' ∧
      s'.historyPointer = max 0 (s.historyPointer - 1) ∧
      s'.drawHistory = s.drawHistory ∧
      jsIndex s.drawHistory s'.historyPointer = some s'.ctx.pixels) ∧
    (∃ s', runActionEffect dpr s (some ActionItem.redo) = Except.ok s' ∧
      s'.historyPointer =
        min ((s.drawHistory.length : ℤ) - 1) (s.historyPointer + 1) ∧
      s'.drawHistory = s.drawHistory ∧
      jsIndex s.drawHistory s'.historyPointer = some s'.ctx.pixels) := by
  constructor
  · obtain ⟨s', heq, hist, -, -, hptr, hpix, -, -⟩ :=
      runActionEffect_step dpr s ActionItem.undo (Or.inl rfl) hN hlo hhi
    exact ⟨s', heq, by simpa using hptr, hist, hpix⟩
  · obtain ⟨s', heq, hist, -, -, hptr, hpix, -, -⟩ :=
      runActionEffect_step dpr s ActionItem.redo (Or.inr rfl) hN hlo hhi
    exact ⟨s', heq, by simpa using hptr, hist, hpix⟩

theorem undo_redo_clamp_and_materialize_witness :
    0 < oneSnapshotBoard.drawHistory.length ∧
    0 ≤ oneSnapshotBoard.historyPointer ∧
    oneSnapshotBoard.historyPointer < (oneSnapshotBoard.drawHistory.length : ℤ) ∧
    ((∃ s', runActionEffect 1 oneSnapshotBoard (some ActionItem.undo) =
        Except.ok s' ∧
      s'.historyPointer = max 0 (oneSnapshotBoard.historyPointer - 1) ∧
      s'.drawHistory = oneSnapshotBoard.drawHistory ∧
      jsIndex oneSnapshotBoard.drawHistory s'.historyPointer =
        some s'.ctx.pixels) ∧
    (∃ s', runActionEffect 1 oneSnapshotBoard (some ActionItem.redo) =
        Except.ok s' ∧
      s'.historyPointer = min ((oneSnapshotBoard.drawHistory.length : ℤ) - 1)
        (oneSnapshotBoard.historyPointer + 1) ∧
      s'.drawHistory = oneSnapshotBoard.drawHistory ∧
      jsIndex oneSnapshotBoard.drawHistory s'.historyPointer =
        some s'.ctx.pixels)) :=
  ⟨by decide, by decide, by decide,
    undo_redo_clamp_and_materialize 1 oneSnapshotBoard (by decide) (by decide)
      (by decide)⟩

/-- C4 counterexample: with an empty snapshot sequence, a delivered Undo
or Redo command is not a silent no-op: the lookup drawHistory[newPointer]
is undefined and putImageData throws, so an error is surfaced. -/
theorem undo_redo_empty_history_error :
    (runActionEffect 1 initialBoard (some ActionItem.undo)).isOk = false ∧
    (runActionEffect 1 initialBoard (some ActionItem.redo)).isOk = false := by
  constructor <;> rfl

/-- C4 amended: for every delivered Undo or Redo command on a nonempty
snapshot sequence with an in-range pointer, the operation is clamped
silently and no error is surfaced; with an empty sequence the snapshot
lookup is undefined and the materialization throws. -/
theorem undo_redo_nonempty_silent (dpr : ℚ) (s : BoardState) (a : ActionItem)
    (ha : a = ActionItem.undo ∨ a = ActionItem.redo)
    (hN : 0 < s.drawHistory.length)
    (hlo : 0 ≤ s.historyPointer)
    (hhi : s.historyPointer < (s.drawHistory.length : ℤ)) :
    ∃ s', runActionEffect dpr s (some a) = Except.ok s' ∧
      0 ≤ s'.historyPointer ∧ s'.historyPointer < (s'.drawHistory.length : ℤ) := by
  obtain ⟨s', heq, -, h0, hlt, -, -, -, -⟩ :=
    runActionEffect_step dpr s a ha hN hlo hhi
  exact ⟨s', heq, h0, hlt⟩

theorem undo_redo_nonempty_silent_witness :
    (ActionItem.undo = ActionItem.undo ∨ ActionItem.undo = ActionItem.redo) ∧
    0 < oneSnapshotBoard.drawHistory.length ∧
    0 ≤ oneSnapshotBoard.historyPointer ∧
    oneSnapshotBoard.historyPointer < (oneSnapshotBoard.drawHistory.length : ℤ) ∧
    (∃ s', runActionEffect 1 oneSnapshotBoard (some ActionItem.undo) =
        Except.ok s' ∧
      0 ≤ s'.historyPointer ∧
      s'.historyPointer < (s'.drawHistory.length : ℤ)) :=
  ⟨by decide, by decide, by decide, by decide,
    undo_redo_nonempty_silent 1 oneSnapshotBoard ActionItem.undo (Or.inl rfl)
      (by decide) (by decide) (by decide)⟩

end Drawvy
